import Mathlib

/-!
Verification of the plaud-mcp repository (Python sources
src/plaud_mcp/plaud_client.py and src/plaud_mcp/server.py) against its
natural-language specification.

The Python code is shallowly embedded: dictionaries with optional keys become
structures with Option fields, raised exceptions become Except values, and
network effects (HTTP attempts, content fetches) become explicit function
parameters so that theorems can quantify over their outcomes.
-/

/-- Typed API error raised by the client, mirroring the PlaudAPIError
exception class: a numeric status code and a message.  The printed form used
by str(e) is statusLine below. -/
structure PlaudAPIError where
  status_code : Nat
  message : String
deriving DecidableEq, Repr

/-- Printed form of a PlaudAPIError, as produced by its constructor's call to
super().__init__ in plaud_client.py. -/
def PlaudAPIError.statusLine (e : PlaudAPIError) : String :=
  "Plaud API Error (" ++ toString e.status_code ++ "): " ++ e.message

/-- An HTTP response as seen by PlaudClient._request: a status code and the
response body (the body stands for the decoded JSON payload; parsing is not
claim-relevant here). -/
structure HttpResponse where
  status : Nat
  body : String
deriving DecidableEq, Repr

/-- Embedding of PlaudClient._request (plaud_client.py lines 183-214).
The successive transport attempts the call could make are a parameter
(attempts k is the outcome of the k-th attempt); the function returns the
call's result paired with the number of attempts actually consumed.  The
source makes a single client.request call inside one try block: an
httpx.HTTPStatusError (raise_for_status on a status of 400 or above) becomes
a PlaudAPIError with that status, an httpx.RequestError becomes a
PlaudAPIError with status 0, and there is no loop or second attempt.
authed models _ensure_authenticated succeeding (false raises the 401 error
before any attempt). -/
def request_attempts (authed : Bool) (attempts : Nat → Except String HttpResponse) :
    Except PlaudAPIError String × Nat :=
  if authed then
    match attempts 0 with
    | Except.error e => (Except.error ⟨0, "Request failed: " ++ e⟩, 1)
    | Except.ok r =>
      if 400 ≤ r.status then (Except.error ⟨r.status, r.body⟩, 1)
      else (Except.ok r.body, 1)
  else
    (Except.error ⟨401, "No Plaud Desktop token found. Please sign in to Plaud Desktop app."⟩, 0)

/-- C1 counterexample: the claim says that with two consecutive connection
failures the call fails after the second attempt.  On the code, with a
transport that fails every attempt, the call consumes exactly one attempt,
not two: there is no transparent retry in PlaudClient._request. -/
theorem request_single_attempt_counterexample :
    (request_attempts true (fun _ => Except.error "Connection refused")).2 = 1
    ∧ ¬ (request_attempts true (fun _ => Except.error "Connection refused")).2 = 2 := by
  constructor
  · rfl
  · decide

/-- C1 (amended): no transparent retry is performed.  Whenever the first
transport attempt fails, PlaudClient._request surfaces a typed API error with
status 0 immediately, having consumed exactly one attempt. -/
theorem request_no_retry (attempts : Nat → Except String HttpResponse) (e : String)
    (h : attempts 0 = Except.error e) :
    request_attempts true attempts =
      (Except.error ⟨0, "Request failed: " ++ e⟩, 1) := by
  simp [request_attempts, h]

/-- Witness for request_no_retry at a concrete failing transport. -/
theorem request_no_retry_witness :
    request_attempts true (fun _ => Except.error "timeout") =
      (Except.error ⟨0, "Request failed: timeout"⟩, 1) :=
  request_no_retry (fun _ => Except.error "timeout") "timeout" rfl

/-- A suspension event of the search loop in server.py search_transcripts:
iteration i begins its per-candidate content fetch (start i) and completes it
(finish i). -/
inductive FetchEv where
  | start (i : Nat)
  | finish (i : Nat)
deriving DecidableEq, Repr

/-- Event trace of the loop body of search_transcripts (server.py lines
190-223) over n candidate files.  The loop is a plain for statement whose
body awaits client.get_transcript before the next iteration begins, so
iteration i contributes start i immediately followed by finish i; there is no
task group, semaphore or worker pool in the source. -/
def searchFetchTrace : Nat → List FetchEv
  | 0 => []
  | n+1 => searchFetchTrace n ++ [FetchEv.start n, FetchEv.finish n]

/-- Number of content fetches in flight after a list of events: starts minus
finishes, accumulated left to right. -/
def inFlight (tr : List FetchEv) : Nat :=
  tr.foldl (fun acc e => match e with | FetchEv.start _ => acc + 1 | FetchEv.finish _ => acc - 1) 0

/-- Length of the search trace: two events per candidate. -/
theorem length_searchFetchTrace (n : Nat) : (searchFetchTrace n).length = 2 * n := by
  induction n with
  | zero => rfl
  | succ k ih => simp [searchFetchTrace, ih]; omega

/-- After the whole search every fetch has completed. -/
theorem inFlight_searchFetchTrace (n : Nat) : inFlight (searchFetchTrace n) = 0 := by
  induction n with
  | zero => rfl
  | succ k ih =>
    simp [searchFetchTrace, inFlight, List.foldl_append] at ih ⊢
    simp [ih]

/-- Largest number of fetches simultaneously in flight at any moment of a
trace, taken over all its prefixes. -/
def maxInFlight (tr : List FetchEv) : Nat :=
  (List.range (tr.length + 1)).foldl (fun m k => max m (inFlight (tr.take k))) 0

set_option maxRecDepth 10000 in
/-- C2 counterexample: the claim says per-candidate content fetches are
issued concurrently, a fixed worker cap of 5 bounding the number in flight.
On the code, with 20 candidate files, the loop's trace never has two fetches
in flight at once: the maximum over every moment is 1, so no concurrent
issuance (let alone a pool of 5 workers) ever happens. -/
theorem search_sequential_counterexample :
    maxInFlight (searchFetchTrace 20) = 1
    ∧ ¬ 2 ≤ maxInFlight (searchFetchTrace 20) := by
  constructor
  · decide
  · decide

/-- C2 (amended): search_transcripts issues its per-candidate content fetches
strictly sequentially: at every moment of the loop over any number of
candidates, at most one fetch is in flight (so any cap of 5 is vacuously
respected, but no concurrency exists). -/
theorem search_in_flight_le_one (n k : Nat) :
    inFlight ((searchFetchTrace n).take k) ≤ 1 := by
  induction n generalizing k with
  | zero => simp [searchFetchTrace, inFlight]
  | succ m ih =>
    rcases Nat.lt_or_ge k (searchFetchTrace m).length with hk | hk
    · rw [searchFetchTrace, List.take_append_of_le_length (Nat.le_of_lt hk)]
      exact ih k
    · rw [searchFetchTrace, List.take_append_eq_append_take,
        List.take_of_length_le hk]
      rcases Nat.lt_or_ge (k - (searchFetchTrace m).length) 1 with hm | hm
      · interval_cases h : (k - (searchFetchTrace m).length)
        · simp [inFlight, List.foldl_append]
          have := inFlight_searchFetchTrace m
          simp [inFlight] at this
          simp [this]
      · rcases Nat.lt_or_ge (k - (searchFetchTrace m).length) 2 with hm2 | hm2
        · have h1 : k - (searchFetchTrace m).length = 1 := by omega
          rw [h1]
          have := inFlight_searchFetchTrace m
          simp [inFlight, List.foldl_append] at this ⊢
          simp [this]
        · have h2 : [FetchEv.start m, FetchEv.finish m].take (k - (searchFetchTrace m).length)
              = [FetchEv.start m, FetchEv.finish m] := by
            apply List.take_of_length_le; simp; omega
          rw [h2]
          have := inFlight_searchFetchTrace (m + 1)
          rw [searchFetchTrace] at this
          simp [this]

/-- One entry of a file detail's content_list: the data_type kind and the
signed data_link URL, both optional keys of the underlying dictionary. -/
structure ContentRef where
  data_type : Option String
  data_link : Option String
deriving DecidableEq, Repr

/-- The part of a file detail record read by get_transcript and get_summary:
detail.get with key content_list and default empty list. -/
structure FileDetail where
  content_list : List ContentRef
deriving DecidableEq, Repr

/-- Result of content resolution: either the fetched payload, or the
error-dictionary value the client returns when no matching content reference
exists, carrying the error message and the file id exactly as the dict
literal in plaud_client.py does. -/
inductive ContentFetchResult (α : Type) where
  | payload (data : α)
  | missing (errorMsg : String) (file_id : String)
deriving DecidableEq, Repr

/-- The reference-selection loop shared by get_transcript and get_summary:
walk content_list, stop at the first entry whose data_type equals the
requested kind, and take that entry's data_link (which may itself be absent). -/
def find_content_url (kind : String) (refs : List ContentRef) : Option String :=
  (refs.find? (fun c => decide (c.data_type = some kind))).bind (fun c => c.data_link)

/-- Embedding of PlaudClient.get_transcript (plaud_client.py lines 305-329).
The get_file_detail call and the _fetch_content call are parameters, both
fallible with PlaudAPIError; the kind selected is the string transaction.
The guard on the selected URL is Python's falsy test (if not transcript_url),
so both a missing data_link and an empty-string data_link yield the
dictionary with error message No transcript available and the file id. -/
def get_transcript {α : Type} (get_file_detail : Except PlaudAPIError FileDetail)
    (fetch_content : String → Except PlaudAPIError α) (file_id : String) :
    Except PlaudAPIError (ContentFetchResult α) :=
  match get_file_detail with
  | Except.error e => Except.error e
  | Except.ok detail =>
    match find_content_url "transaction" detail.content_list with
    | none => Except.ok (ContentFetchResult.missing "No transcript available" file_id)
    | some url =>
      if url = "" then Except.ok (ContentFetchResult.missing "No transcript available" file_id)
      else (fetch_content url).map ContentFetchResult.payload

/-- Embedding of PlaudClient.get_summary (plaud_client.py lines 331-355),
identical to get_transcript except that the kind is auto_sum_note and the
message is No summary available; the same falsy test applies to the selected
URL. -/
def get_summary {α : Type} (get_file_detail : Except PlaudAPIError FileDetail)
    (fetch_content : String → Except PlaudAPIError α) (file_id : String) :
    Except PlaudAPIError (ContentFetchResult α) :=
  match get_file_detail with
  | Except.error e => Except.error e
  | Except.ok detail =>
    match find_content_url "auto_sum_note" detail.content_list with
    | none => Except.ok (ContentFetchResult.missing "No summary available" file_id)
    | some url =>
      if url = "" then Except.ok (ContentFetchResult.missing "No summary available" file_id)
      else (fetch_content url).map ContentFetchResult.payload

/-- C3: content resolution selects the first reference whose kind matches the
requested type; when no reference of that kind exists the operation yields
the missing-content value carrying the message and the file id, and that
outcome is distinguishable from any raised PlaudAPIError (transport status 0,
authorization status 401, or any other).  The last two conjuncts cover the
selected link: a non-empty link is fetched and returned as the payload, while
an empty-string link falls under Python's falsy test and also yields the
missing-content value. -/
theorem content_resolution_not_found {α : Type} (detail : FileDetail) (file_id : String)
    (fetch : String → Except PlaudAPIError α)
    (hT : ∀ c ∈ detail.content_list, c.data_type ≠ some "transaction")
    (hS : ∀ c ∈ detail.content_list, c.data_type ≠ some "auto_sum_note") :
    get_transcript (Except.ok detail) fetch file_id
        = Except.ok (ContentFetchResult.missing "No transcript available" file_id)
    ∧ get_summary (Except.ok detail) fetch file_id
        = Except.ok (ContentFetchResult.missing "No summary available" file_id)
    ∧ (∀ e : PlaudAPIError,
        (Except.ok (ContentFetchResult.missing "No transcript available" file_id)
          : Except PlaudAPIError (ContentFetchResult α)) ≠ Except.error e)
    ∧ (∀ (d : FileDetail) (r : ContentRef) (u : String) (v : α),
        d.content_list.find? (fun c => decide (c.data_type = some "transaction")) = some r →
        r.data_link = some u → u ≠ "" → fetch u = Except.ok v →
        get_transcript (Except.ok d) fetch file_id = Except.ok (ContentFetchResult.payload v))
    ∧ (∀ (d : FileDetail) (r : ContentRef),
        d.content_list.find? (fun c => decide (c.data_type = some "transaction")) = some r →
        r.data_link = some "" →
        get_transcript (Except.ok d) fetch file_id
          = Except.ok (ContentFetchResult.missing "No transcript available" file_id)) := by
  have hfT : detail.content_list.find? (fun c => decide (c.data_type = some "transaction")) = none := by
    rw [List.find?_eq_none]
    intro c hc
    simp [hT c hc]
  have hfS : detail.content_list.find? (fun c => decide (c.data_type = some "auto_sum_note")) = none := by
    rw [List.find?_eq_none]
    intro c hc
    simp [hS c hc]
  refine ⟨?_, ?_, ?_, ?_, ?_⟩
  · simp [get_transcript, find_content_url, hfT]
  · simp [get_summary, find_content_url, hfS]
  · intro e h
    exact Except.noConfusion h
  · intro d r u v hfind hlink hu hfetch
    simp [get_transcript, find_content_url, hfind, hlink, hu, hfetch, Except.map]
  · intro d r hfind hlink
    simp [get_transcript, find_content_url, hfind, hlink]

/-- Witness for content_resolution_not_found: a detail record whose only
content reference has an unrelated kind. -/
theorem content_resolution_not_found_witness :
    get_transcript (α := Nat) (Except.ok ⟨[⟨some "other", some "u"⟩]⟩)
        (fun _ => Except.ok 0) "f1"
      = Except.ok (ContentFetchResult.missing "No transcript available" "f1")
    ∧ get_summary (α := Nat) (Except.ok ⟨[⟨some "other", some "u"⟩]⟩)
        (fun _ => Except.ok 0) "f1"
      = Except.ok (ContentFetchResult.missing "No summary available" "f1") :=
  ⟨(content_resolution_not_found ⟨[⟨some "other", some "u"⟩]⟩ "f1"
      (fun _ => Except.ok 0) (by decide) (by decide)).1,
   (content_resolution_not_found ⟨[⟨some "other", some "u"⟩]⟩ "f1"
      (fun _ => Except.ok 0) (by decide) (by decide)).2.1⟩

/-- Mutable fields of a PlaudClient instance: the cached access token and the
exp claim of the cached token payload (absent when _token_data is missing or
has no exp key).  A fresh instance has both fields None. -/
structure ClientState where
  access_token : Option String
  token_exp : Option Int
deriving DecidableEq, Repr

/-- Outcome of _extract_token_from_leveldb when it finds a token: the
reconstructed token string and the exp claim it stored in _token_data. -/
structure TokenInfo where
  token : String
  exp : Option Int
deriving DecidableEq, Repr

/-- The freshness test inside _ensure_authenticated: the cached token is kept
only when token data with an exp claim exists and the current time is still
strictly below it. -/
def tokenFreshB (exp : Option Int) (now : Int) : Bool :=
  match exp with
  | some e => decide (now < e)
  | none => false

/-- Embedding of PlaudClient._ensure_authenticated (plaud_client.py lines
158-173).  extract is the outcome of _extract_token_from_leveldb (None when
storage is absent, unreadable, or holds no token - that helper swallows its
own exceptions and returns None).  A falsy extraction result (None or the
empty string) raises the 401 error; otherwise the state is updated with the
new token. -/
def ensure_authenticated (st : ClientState) (now : Int) (extract : Option TokenInfo) :
    Except PlaudAPIError ClientState :=
  if st.access_token.isSome && tokenFreshB st.token_exp now then
    Except.ok st
  else
    match extract with
    | none =>
      Except.error ⟨401, "No Plaud Desktop token found. Please sign in to Plaud Desktop app."⟩
    | some info =>
      if info.token = "" then
        Except.error ⟨401, "No Plaud Desktop token found. Please sign in to Plaud Desktop app."⟩
      else
        Except.ok { access_token := some info.token, token_exp := info.exp }

/-- Embedding of PlaudClient.is_available (plaud_client.py lines 175-181):
call _ensure_authenticated, return True on success, catch PlaudAPIError and
return False.  The embedding is a total Boolean function: no error value
escapes. -/
def is_available (st : ClientState) (now : Int) (extract : Option TokenInfo) : Bool :=
  match ensure_authenticated st now extract with
  | Except.ok _ => true
  | Except.error _ => false

/-- Status value returned by the check_connection tool: exactly one of the
three dictionaries built in server.py lines 241-263. -/
inductive ConnStatus where
  | connected (total_files : Nat) (message : String)
  | unavailable (message : String)
  | error (message : String)
deriving DecidableEq, Repr

/-- An exception that the body of check_connection's try block can raise:
either a PlaudAPIError (raised on the client's own error paths and caught by
the except clause), or a JSON decode error, which response.json() in _request
(plaud_client.py line 208) raises on a 2xx response with a non-JSON body and
which no except clause on the way to the caller catches. -/
inductive PyException where
  | api (e : PlaudAPIError)
  | jsonDecode (message : String)
deriving DecidableEq, Repr

/-- Embedding of the check_connection tool (server.py lines 241-263):
if is_available, call get_file_count (a fallible parameter here) and report
connected; otherwise report unavailable.  The except clause catches only
PlaudAPIError, reporting it as the error status with str(e); any other
exception raised inside the try block - such as a json.JSONDecodeError from
response.json() - propagates to the caller, which the embedding renders as
the Except.error outcome of the whole operation. -/
def check_connection (st : ClientState) (now : Int) (extract : Option TokenInfo)
    (get_file_count : Except PyException Nat) : Except PyException ConnStatus :=
  if is_available st now extract then
    match get_file_count with
    | Except.ok count =>
      Except.ok (ConnStatus.connected count "Connected to Plaud via Desktop app CDP proxy")
    | Except.error (PyException.api e) => Except.ok (ConnStatus.error e.statusLine)
    | Except.error (PyException.jsonDecode m) => Except.error (PyException.jsonDecode m)
  else
    Except.ok (ConnStatus.unavailable
      "Plaud Desktop not running or not signed in. Launch the app and try again.")

/-- C4 counterexample: the claim says no exception escapes check_connection
for any outcome.  With a signed-in client and a count call whose 2xx response
body fails JSON parsing, the json.JSONDecodeError passes the except
PlaudAPIError clause and escapes to the caller: the operation's outcome is an
escaped exception, not a status value. -/
theorem check_connection_raises_counterexample :
    check_connection ⟨none, none⟩ 0 (some ⟨"tok", some 1⟩)
        (Except.error (PyException.jsonDecode "Expecting value: line 1 column 1 (char 0)"))
      = Except.error (PyException.jsonDecode "Expecting value: line 1 column 1 (char 0)")
    ∧ ¬ ∃ s : ConnStatus, check_connection ⟨none, none⟩ 0 (some ⟨"tok", some 1⟩)
        (Except.error (PyException.jsonDecode "Expecting value: line 1 column 1 (char 0)"))
      = Except.ok s := by
  constructor
  · rfl
  · rintro ⟨s, hs⟩
    have h : (Except.error (PyException.jsonDecode "Expecting value: line 1 column 1 (char 0)")
        : Except PyException ConnStatus) = Except.ok s := by
      rw [← hs]
      rfl
    exact Except.noConfusion h

/-- C4 (amended): in the claim's scenario - no cached token and token
extraction finding nothing, i.e. the target app absent or not signed in -
is_available returns false and check_connection returns the unavailable
status, with no exception escaping; and whenever every failure the count
call can raise is a PlaudAPIError, check_connection returns one of its
status values.  Only an exception outside PlaudAPIError (a JSON decode
error from a malformed 2xx response body) escapes to the caller. -/
theorem availability_status_values (st : ClientState) (now : Int)
    (cnt : Except PyException Nat) (hst : st.access_token = none) :
    is_available st now none = false
    ∧ check_connection st now none cnt =
        Except.ok (ConnStatus.unavailable
          "Plaud Desktop not running or not signed in. Launch the app and try again.")
    ∧ (∀ (st' : ClientState) (ex : Option TokenInfo) (cnt' : Except PyException Nat),
        (∀ e, cnt' = Except.error e → ∃ a, e = PyException.api a) →
        ∃ s : ConnStatus, check_connection st' now ex cnt' = Except.ok s) := by
  have hia : is_available st now none = false := by
    simp [is_available, ensure_authenticated, hst]
  refine ⟨hia, ?_, ?_⟩
  · simp [check_connection, hia]
  · intro st' ex cnt' hapi
    unfold check_connection
    rcases h : is_available st' now ex with _ | _
    · simp
    · rcases cnt' with e | n
      · rcases hapi e rfl with ⟨a, rfl⟩
        simp
      · simp

/-- Witness for availability_status_values at the fresh client state, also
exercising the api-only conjunct at a concrete failing count call. -/
theorem availability_status_values_witness :
    is_available ⟨none, none⟩ 0 none = false
    ∧ check_connection ⟨none, none⟩ 0 none (Except.ok 5) =
        Except.ok (ConnStatus.unavailable
          "Plaud Desktop not running or not signed in. Launch the app and try again.")
    ∧ ∃ s : ConnStatus, check_connection ⟨none, none⟩ 0 (some ⟨"tok", some 1⟩)
        (Except.error (PyException.api ⟨500, "boom"⟩)) = Except.ok s :=
  ⟨(availability_status_values ⟨none, none⟩ 0 (Except.ok 5) rfl).1,
   (availability_status_values ⟨none, none⟩ 0 (Except.ok 5) rfl).2.1,
   (availability_status_values ⟨none, none⟩ 0 (Except.ok 5) rfl).2.2
     ⟨none, none⟩ (some ⟨"tok", some 1⟩) (Except.error (PyException.api ⟨500, "boom"⟩))
     (fun e he => ⟨⟨500, "boom"⟩, by injection he with h; exact h.symm⟩)⟩

/-- Embedding of PlaudClient._fetch_content (plaud_client.py lines 290-303)
after a successful HTTP fetch: content is the response body as a byte list;
when its first two bytes are the gzip magic pair 0x1f 0x8b the body is
decompressed (gunzip parameter) before JSON parsing (parseJson parameter),
otherwise the raw bytes are parsed directly. -/
def fetch_content {α : Type} (gunzip : List Nat → List Nat)
    (parseJson : List Nat → Except String α) (content : List Nat) : Except String α :=
  if content.take 2 = [0x1f, 0x8b] then parseJson (gunzip content)
  else parseJson content

/-- C5: the body is gzip-decompressed before parsing if and only if its first
two bytes are 0x1f 0x8b; a body without that prefix is parsed as raw JSON;
and for a gzipped body gz whose decompression is the raw body raw, both paths
yield the same parsed result. -/
theorem gzip_detection {α : Type} (gunzip : List Nat → List Nat)
    (parseJson : List Nat → Except String α) (raw gz : List Nat)
    (hmagic : gz.take 2 = [0x1f, 0x8b])
    (hroundtrip : gunzip gz = raw)
    (hraw : raw.take 2 ≠ [0x1f, 0x8b]) :
    (∀ b : List Nat, b.take 2 = [0x1f, 0x8b] →
        fetch_content gunzip parseJson b = parseJson (gunzip b))
    ∧ (∀ b : List Nat, b.take 2 ≠ [0x1f, 0x8b] →
        fetch_content gunzip parseJson b = parseJson b)
    ∧ fetch_content gunzip parseJson gz = parseJson raw
    ∧ fetch_content gunzip parseJson gz = fetch_content gunzip parseJson raw := by
  refine ⟨?_, ?_, ?_, ?_⟩
  · intro b hb
    simp [fetch_content, hb]
  · intro b hb
    simp [fetch_content, hb]
  · simp [fetch_content, hmagic, hroundtrip]
  · simp [fetch_content, hmagic, hroundtrip, hraw]

/-- Witness for gzip_detection with concrete bytes: gz begins with the magic
pair, raw does not, and gunzip maps gz to raw. -/
theorem gzip_detection_witness :
    fetch_content (fun _ => [123, 125]) (fun b => Except.ok b) [0x1f, 0x8b, 7]
      = Except.ok [123, 125]
    ∧ fetch_content (fun _ => [123, 125]) (fun b => Except.ok b) [0x1f, 0x8b, 7]
      = fetch_content (fun _ => [123, 125]) (fun b => Except.ok b) [123, 125] :=
  ⟨(gzip_detection (fun _ => [123, 125]) (fun b => Except.ok b) [123, 125] [0x1f, 0x8b, 7]
      (by decide) rfl (by decide)).2.2.1,
   (gzip_detection (fun _ => [123, 125]) (fun b => Except.ok b) [123, 125] [0x1f, 0x8b, 7]
      (by decide) rfl (by decide)).2.2.2⟩

/-- The context window size of _extract_excerpt: the default value 200 of its
context_chars parameter, used at its only call site. -/
def contextChars : Nat := 200

/-- The ellipsis marker appended or prepended by _extract_excerpt. -/
def dots : List Char := ['.', '.', '.']

/-- Python str.find: the smallest index at which needle occurs as a
contiguous run of hay, or None when it does not occur (Python returns -1).
An empty needle is found at index 0, as in Python. -/
def listFind (hay needle : List Char) : Option Nat :=
  (List.range (hay.length + 1)).find? (fun i => needle.isPrefixOf (hay.drop i))

/-- Embedding of _extract_excerpt (server.py lines 326-351) with text and
query as character lists (Python strings index by code point).  Both strings
are lowercased character by character, the first occurrence index is found in
the lowered text, and the slice positions computed on the lowered text are
applied to the original text; Python's max(0, pos - 200) is Nat subtraction. -/
def extract_excerpt (text query : List Char) : List Char :=
  if text = [] then []
  else
    match listFind (text.map Char.toLower) (query.map Char.toLower) with
    | none =>
      if contextChars * 2 < text.length then text.take (contextChars * 2) ++ dots else text
    | some pos =>
      let start := pos - contextChars
      let stop := min text.length (pos + query.length + contextChars)
      let excerpt := (text.take stop).drop start
      let excerpt2 := if 0 < start then dots ++ excerpt else excerpt
      if stop < text.length then excerpt2 ++ dots else excerpt2

/-- C6: for non-empty text, when the query occurs case-insensitively at first
index pos the excerpt is the window of up to contextChars characters before
the occurrence and after its end, with the ellipsis marker prefixed exactly
when the window is truncated on the left (pos exceeds contextChars) and
suffixed exactly when truncated on the right; when the query does not occur
the excerpt is the leading slice of twice contextChars characters (the whole
text when shorter), marked when truncated, and that slice is a prefix of the
text. -/
theorem excerpt_extraction (text query : List Char) (hne : text ≠ []) :
    (∀ pos, listFind (text.map Char.toLower) (query.map Char.toLower) = some pos →
      extract_excerpt text query =
        (if contextChars < pos then dots else [])
          ++ ((text.take (min text.length (pos + query.length + contextChars))).drop
                (pos - contextChars))
          ++ (if pos + query.length + contextChars < text.length then dots else []))
    ∧ (listFind (text.map Char.toLower) (query.map Char.toLower) = none →
        extract_excerpt text query
          = text.take (contextChars * 2) ++ (if contextChars * 2 < text.length then dots else [])
        ∧ (text.take (contextChars * 2)).isPrefixOf text = true) := by
  constructor
  · intro pos hfind
    unfold extract_excerpt
    rw [if_neg hne, hfind]
    dsimp only
    by_cases h1 : contextChars < pos
    · by_cases h2 : pos + query.length + contextChars < text.length
      · rw [if_pos (by omega : (0:Nat) < pos - contextChars),
          if_pos (by omega : min text.length (pos + query.length + contextChars) < text.length),
          if_pos h1, if_pos h2]
      · rw [if_pos (by omega : (0:Nat) < pos - contextChars),
          if_neg (by omega : ¬ min text.length (pos + query.length + contextChars) < text.length),
          if_pos h1, if_neg h2]
        simp
    · by_cases h2 : pos + query.length + contextChars < text.length
      · rw [if_neg (by omega : ¬ (0:Nat) < pos - contextChars),
          if_pos (by omega : min text.length (pos + query.length + contextChars) < text.length),
          if_neg h1, if_pos h2]
        simp
      · rw [if_neg (by omega : ¬ (0:Nat) < pos - contextChars),
          if_neg (by omega : ¬ min text.length (pos + query.length + contextChars) < text.length),
          if_neg h1, if_neg h2]
        simp
  · intro hfind
    constructor
    · unfold extract_excerpt
      rw [if_neg hne, hfind]
      dsimp only
      by_cases h : contextChars * 2 < text.length
      · rw [if_pos h, if_pos h]
      · rw [if_neg h, if_neg h]
        simp
        omega
    · rw [List.isPrefixOf_iff_prefix]
      exact List.take_prefix _ _

/-- Witness for excerpt_extraction: the query WORLD is found
case-insensitively at index 6 of a short text, and the window covers the
whole text, so no ellipsis marker appears. -/
theorem excerpt_extraction_witness :
    extract_excerpt ("hello world foo".data) ("WORLD".data) = "hello world foo".data := by
  have h := (excerpt_extraction ("hello world foo".data) ("WORLD".data) (by decide)).1 6 (by decide)
  rw [h]
  decide

/-- A file record as the code reads it: every key is accessed with dict.get,
so every field is optional.  start_time is epoch milliseconds, duration is
milliseconds, is_trans and is_summary are the presence flags. -/
structure FileRec where
  id : Option String
  filename : Option String
  start_time : Option Int
  duration : Option Nat
  is_trans : Option Bool
  is_summary : Option Bool
deriving DecidableEq, Repr

/-- Embedding of PlaudClient.get_recent_files (plaud_client.py lines
357-369) given the fetched file list: cutoff_ms is the current time in epoch
milliseconds minus days of 86,400,000 ms each (time is modelled in exact
millisecond arithmetic), and a file is kept when its start_time (default 0
for a missing key) is greater than or equal to the cutoff. -/
def get_recent_files (files : List FileRec) (now_ms : Int) (days : Nat) : List FileRec :=
  files.filter (fun f => decide (now_ms - (days : Int) * 86400000 ≤ f.start_time.getD 0))

/-- C7: the recent-file window is inclusive at its lower bound: a file is a
candidate if and only if it is in the fetched list and its start_time is at
least now_ms minus days times 86,400,000; a file exactly at the bound is
included, and one millisecond below is excluded. -/
theorem recent_files_inclusive_bound (files : List FileRec) (now_ms : Int) (days : Nat)
    (f : FileRec) :
    (f ∈ get_recent_files files now_ms days ↔
      f ∈ files ∧ now_ms - (days : Int) * 86400000 ≤ f.start_time.getD 0)
    ∧ (f.start_time = some (now_ms - (days : Int) * 86400000) → f ∈ files →
        f ∈ get_recent_files files now_ms days)
    ∧ (f.start_time = some (now_ms - (days : Int) * 86400000 - 1) →
        f ∉ get_recent_files files now_ms days) := by
  have hmem : f ∈ get_recent_files files now_ms days ↔
      f ∈ files ∧ now_ms - (days : Int) * 86400000 ≤ f.start_time.getD 0 := by
    simp [get_recent_files, List.mem_filter]
  refine ⟨hmem, ?_, ?_⟩
  · intro hst hin
    exact hmem.mpr ⟨hin, by rw [hst]; simp⟩
  · intro hst hin
    rcases hmem.mp hin with ⟨-, hle⟩
    rw [hst] at hle
    simp at hle

/-- A file whose start_time sits exactly on the window's lower bound for
now_ms of 86,400,000 and one day. -/
def boundFile : FileRec := ⟨some "x", none, some 0, none, none, none⟩

/-- A file whose start_time is one millisecond below that bound. -/
def belowFile : FileRec := ⟨some "y", none, some (-1), none, none, none⟩

/-- Witness for recent_files_inclusive_bound: at the bound included, one
millisecond below excluded. -/
theorem recent_files_inclusive_bound_witness :
    boundFile ∈ get_recent_files [boundFile, belowFile] 86400000 1
    ∧ belowFile ∉ get_recent_files [boundFile, belowFile] 86400000 1 :=
  ⟨(recent_files_inclusive_bound [boundFile, belowFile] 86400000 1 boundFile).2.1
      (by decide) (by simp),
   (recent_files_inclusive_bound [boundFile, belowFile] 86400000 1 belowFile).2.2
      (by decide)⟩

/-- Embedding of _format_timestamp (server.py lines 288-296).  A falsy
timestamp (missing key or 0) becomes the empty string; otherwise the ISO
rendering (with its exception fallback to str) is the isoFmt parameter. -/
def format_timestamp (isoFmt : Int → String) (ts : Option Int) : String :=
  match ts with
  | none => ""
  | some t => if t = 0 then "" else isoFmt t

/-- Embedding of _format_duration (server.py lines 299-311).  A falsy
duration (missing key or 0 ms) becomes the empty string; otherwise divmod
arithmetic on whole seconds renders hours, minutes and seconds, with Python
truthiness on hours and on the reassigned minutes. -/
def format_duration (ms : Option Nat) : String :=
  match ms with
  | none => ""
  | some m =>
    if m = 0 then ""
    else
      let seconds := m / 1000
      let minutes := seconds / 60
      let secs := seconds % 60
      let hours := minutes / 60
      let minutes2 := minutes % 60
      if hours ≠ 0 then
        toString hours ++ "h " ++ toString minutes2 ++ "m " ++ toString secs ++ "s"
      else if minutes2 ≠ 0 then
        toString minutes2 ++ "m " ++ toString secs ++ "s"
      else
        toString secs ++ "s"

/-- The public shape produced by _format_file (server.py lines 276-285). -/
structure FormattedFile where
  id : Option String
  filename : Option String
  date : String
  duration : String
  has_transcript : Bool
  has_summary : Bool
deriving DecidableEq, Repr

/-- Embedding of _format_file: id and filename are passed through, date and
duration are formatted, and the presence flags default to False when their
keys are absent. -/
def format_file (isoFmt : Int → String) (f : FileRec) : FormattedFile :=
  { id := f.id
    filename := f.filename
    date := format_timestamp isoFmt f.start_time
    duration := format_duration f.duration
    has_transcript := f.is_trans.getD false
    has_summary := f.is_summary.getD false }

/-- C9: the formatted output maps a missing or zero start_time to the empty
date string, a missing or zero duration to the empty duration string, and
absent transcript or summary presence flags to false. -/
theorem format_file_defaults (isoFmt : Int → String) (f : FileRec) :
    ((f.start_time = none ∨ f.start_time = some 0) → (format_file isoFmt f).date = "")
    ∧ ((f.duration = none ∨ f.duration = some 0) → (format_file isoFmt f).duration = "")
    ∧ (f.is_trans = none → (format_file isoFmt f).has_transcript = false)
    ∧ (f.is_summary = none → (format_file isoFmt f).has_summary = false) := by
  refine ⟨?_, ?_, ?_, ?_⟩
  · rintro (h | h) <;> simp [format_file, format_timestamp, h]
  · rintro (h | h) <;> simp [format_file, format_duration, h]
  · intro h; simp [format_file, h]
  · intro h; simp [format_file, h]

/-- Witness for format_file_defaults on a record with zero start_time and all
other optional keys absent. -/
theorem format_file_defaults_witness :
    (format_file toString ⟨some "i", some "n", some 0, none, none, none⟩).date = ""
    ∧ (format_file toString ⟨some "i", some "n", some 0, none, none, none⟩).duration = ""
    ∧ (format_file toString ⟨some "i", some "n", some 0, none, none, none⟩).has_transcript = false
    ∧ (format_file toString ⟨some "i", some "n", some 0, none, none, none⟩).has_summary = false :=
  ⟨(format_file_defaults toString _).1 (Or.inr rfl),
   (format_file_defaults toString _).2.1 (Or.inl rfl),
   (format_file_defaults toString _).2.2.1 rfl,
   (format_file_defaults toString _).2.2.2 rfl⟩

/-- Interface model of the remote listing endpoint (spec section 6: the
file-listing call supports skip and limit parameters): the server holds
allFiles in its listing order and returns the requested slice.  get_files in
plaud_client.py forwards skip and limit to this endpoint. -/
def get_files_model (allFiles : List FileRec) (skip limit : Nat) : List FileRec :=
  (allFiles.drop skip).take limit

/-- Embedding of PlaudClient.get_file (plaud_client.py lines 259-275): fetch
the first page of up to 1000 files, return the first record whose id equals
file_id, and raise a PlaudAPIError with status 404 when none does. -/
def get_file (allFiles : List FileRec) (file_id : String) : Except PlaudAPIError FileRec :=
  match (get_files_model allFiles 0 1000).find? (fun f => decide (f.id = some file_id)) with
  | some f => Except.ok f
  | none => Except.error ⟨404, "File not found: " ++ file_id⟩

/-- C10: get_file scans only the first 1000 listed files: it returns the
first record of that page with the requested id, and whenever the id is
absent from that page - regardless of what lies beyond it - it raises the
typed API error with status 404. -/
theorem get_file_first_page_only (allFiles : List FileRec) (fid : String) :
    (∀ f, (allFiles.take 1000).find? (fun g => decide (g.id = some fid)) = some f →
      get_file allFiles fid = Except.ok f)
    ∧ ((∀ f ∈ allFiles.take 1000, f.id ≠ some fid) →
      get_file allFiles fid = Except.error ⟨404, "File not found: " ++ fid⟩) := by
  constructor
  · intro f hf
    simp [get_file, get_files_model, hf]
  · intro hall
    have hnone : (allFiles.take 1000).find? (fun g => decide (g.id = some fid)) = none := by
      rw [List.find?_eq_none]
      intro g hg
      simp [hall g hg]
    simp [get_file, get_files_model, hnone]

/-- A filler record occupying the first page of the listing. -/
def blankFile : FileRec := ⟨some "a", none, none, none, none, none⟩

/-- A record that exists on the service but only beyond the first 1000
listing entries. -/
def targetFile : FileRec := ⟨some "b", none, none, none, none, none⟩

/-- Witness for get_file_first_page_only: the requested file is the 1001st
listing entry, so the lookup reports the 404 error even though the file
exists on the service. -/
theorem get_file_first_page_only_witness :
    get_file (List.replicate 1000 blankFile ++ [targetFile]) "b"
      = Except.error ⟨404, "File not found: b"⟩
    ∧ targetFile ∈ List.replicate 1000 blankFile ++ [targetFile]
    ∧ targetFile.id = some "b" := by
  refine ⟨?_, List.mem_append_right _ (List.mem_singleton.mpr rfl), rfl⟩
  apply (get_file_first_page_only (List.replicate 1000 blankFile ++ [targetFile]) "b").2
  intro f hf
  rw [List.take_left' (List.length_replicate 1000 blankFile)] at hf
  rw [List.eq_of_mem_replicate hf]
  decide

/-- What client.get_transcript can hand the search loop on success: a list of
segments (each carrying an optional content value, as read by seg.get) when
the payload is a list, or some non-list value (such as the error dictionary
for missing content), for which the loop uses an empty transcript text. -/
inductive TranscriptData where
  | segments (segs : List (Option String))
  | nonList
deriving DecidableEq, Repr

/-- The transcript text built inside search_transcripts: the newline join of
the truthy (present and non-empty) segment contents of a list payload, and
the empty string for any non-list payload. -/
def transcriptTextOf (data : TranscriptData) : List Char :=
  match data with
  | TranscriptData.segments segs =>
      (String.intercalate "\n"
        (segs.filterMap (fun c => c.bind (fun s => if s = "" then none else some s)))).data
  | TranscriptData.nonList => []

/-- One entry of the result list of search_transcripts (server.py lines
211-219). -/
structure SearchMatch where
  file_id : String
  title : String
  date : String
  duration : String
  excerpt : List Char
deriving DecidableEq, Repr

/-- One iteration of the search loop (server.py lines 190-223) as a partial
result: None when the iteration contributes nothing, either because an
exception was caught (a missing id key, or the fetch failing - the error is
logged and the file skipped) or because neither the title nor the transcript
matches the lowercased query; otherwise the match entry.  The title check
happens before the fetch in the source, but both must succeed for an entry
to be produced. -/
def process_file (isoFmt : Int → String) (fetch : String → Except String TranscriptData)
    (query : List Char) (f : FileRec) : Option SearchMatch :=
  match f.id with
  | none => none
  | some fid =>
    let title := f.filename.getD ""
    let query_lower := query.map Char.toLower
    let title_match := (listFind (title.data.map Char.toLower) query_lower).isSome
    match fetch fid with
    | Except.error _ => none
    | Except.ok data =>
      let ttext := transcriptTextOf data
      let trans_match := (listFind (ttext.map Char.toLower) query_lower).isSome
      if title_match || trans_match then
        some { file_id := fid, title := title,
               date := format_timestamp isoFmt f.start_time,
               duration := format_duration f.duration,
               excerpt := extract_excerpt ttext query }
      else none

/-- Embedding of search_transcripts over the candidate file list: the loop
appends per-iteration results in candidate order, which is exactly filterMap
of the iteration body. -/
def search_transcripts (isoFmt : Int → String) (fetch : String → Except String TranscriptData)
    (query : List Char) (files : List FileRec) : List SearchMatch :=
  files.filterMap (process_file isoFmt fetch query)

/-- A produced match entry carries the id of the file its iteration
processed. -/
theorem process_file_id (isoFmt : Int → String) (fetch : String → Except String TranscriptData)
    (query : List Char) (f : FileRec) (m : SearchMatch)
    (h : process_file isoFmt fetch query f = some m) : f.id = some m.file_id := by
  unfold process_file at h
  rcases hid : f.id with _ | fid
  · rw [hid] at h
    exact Option.noConfusion h
  · rw [hid] at h
    dsimp only at h
    rcases hfe : fetch fid with e | data
    · rw [hfe] at h
      exact Option.noConfusion h
    · rw [hfe] at h
      dsimp only at h
      split at h
      · rw [Option.some_inj] at h
        rw [← h]
      · exact Option.noConfusion h

/-- The ids of the search results form a subsequence of the candidate ids:
ordering follows the candidate set and nothing is reordered. -/
theorem search_ids_sublist (isoFmt : Int → String) (fetch : String → Except String TranscriptData)
    (query : List Char) (files : List FileRec) :
    ((search_transcripts isoFmt fetch query files).map (fun m => m.file_id)).Sublist
      (files.filterMap (fun g => g.id)) := by
  induction files with
  | nil => simp [search_transcripts]
  | cons f fs ih =>
    rw [search_transcripts, List.filterMap_cons, List.filterMap_cons]
    rcases hpf : process_file isoFmt fetch query f with _ | m
    · rcases hid : f.id with _ | fid
      · exact ih
      · exact List.Sublist.cons fid ih
    · rw [process_file_id isoFmt fetch query f m hpf]
      rw [List.map_cons]
      exact List.Sublist.cons₂ m.file_id ih

/-- C8: a single failing content fetch only drops that file: searching a
candidate list with a failing file in the middle equals the concatenation of
searching the part before and the part after it (every other candidate is
still processed, the loop never aborts), and for every candidate list the
result ids are a subsequence of the candidate ids, so surviving results keep
the original order. -/
theorem search_isolates_failures (isoFmt : Int → String)
    (fetch : String → Except String TranscriptData) (query : List Char)
    (xs ys : List FileRec) (f : FileRec) (fid e : String)
    (hid : f.id = some fid) (hf : fetch fid = Except.error e) :
    search_transcripts isoFmt fetch query (xs ++ f :: ys)
      = search_transcripts isoFmt fetch query xs ++ search_transcripts isoFmt fetch query ys
    ∧ ∀ files : List FileRec,
        ((search_transcripts isoFmt fetch query files).map (fun m => m.file_id)).Sublist
          (files.filterMap (fun g => g.id)) := by
  constructor
  · have hpf : process_file isoFmt fetch query f = none := by
      unfold process_file
      rw [hid]
      dsimp only
      rw [hf]
    rw [search_transcripts, search_transcripts, search_transcripts,
      List.filterMap_append, List.filterMap_cons, hpf]
  · exact search_ids_sublist isoFmt fetch query

/-- Transcript fetch used by the search witness: fails on the file with id
bad, succeeds with a matching transcript elsewhere. -/
def witnessFetch (s : String) : Except String TranscriptData :=
  if s = "bad" then Except.error "boom"
  else Except.ok (TranscriptData.segments [some "hello world"])

/-- A good candidate record with id g1. -/
def goodFile1 : FileRec := ⟨some "g1", some "first", none, none, none, none⟩

/-- A candidate record whose content fetch fails. -/
def badFile : FileRec := ⟨some "bad", some "broken", none, none, none, none⟩

/-- A good candidate record with id g2. -/
def goodFile2 : FileRec := ⟨some "g2", some "second", none, none, none, none⟩

/-- Witness for search_isolates_failures: with the failing file between two
good candidates, the result equals the two surrounding searches concatenated,
and both good files still produce their matches in order. -/
theorem search_isolates_failures_witness :
    search_transcripts toString witnessFetch ("world".data) [goodFile1, badFile, goodFile2]
      = search_transcripts toString witnessFetch ("world".data) [goodFile1]
        ++ search_transcripts toString witnessFetch ("world".data) [goodFile2]
    ∧ ((search_transcripts toString witnessFetch ("world".data)
          [goodFile1, badFile, goodFile2]).map (fun m => m.file_id)).Sublist
        ([goodFile1, badFile, goodFile2].filterMap (fun g => g.id)) :=
  ⟨(search_isolates_failures toString witnessFetch ("world".data)
      [goodFile1] [goodFile2] badFile "bad" "boom" rfl rfl).1,
   (search_isolates_failures toString witnessFetch ("world".data)
      [goodFile1] [goodFile2] badFile "bad" "boom" rfl rfl).2
      [goodFile1, badFile, goodFile2]⟩
